import Mathlib

/-!
Shallow embedding of the statistics/streaming core of wiki-battle
(`src/js/app.js`): the `Contender` sampler and the `Battle` comparator.

JavaScript numbers are modelled as real numbers (`ℝ`); arrival timestamps
(`Date.now()`) as integers (`ℤ`); per-window event counts as naturals.
The single-threaded event-loop semantics is modelled as a step function on
an explicit state: inbound websocket messages and window-close timer ticks
are the two kinds of events.  Callback invocations (`onNewCount`,
`onChangeWinner`) are modelled as emitted event values returned by each
step, rather than as side effects.
-/

namespace WikiBattle

/-- `var MAX_SCORES_TO_CONSIDER = 20;` -/
def MAX_SCORES_TO_CONSIDER : ℕ := 20

/-- `var MESSAGE_WINDOW_SIZE = 1000;` (milliseconds between window closes). -/
def MESSAGE_WINDOW_SIZE : ℕ := 1000

/-- `function _average(data)`: `data.reduce((sum, value) => sum + value, 0) / data.length`. -/
noncomputable def _average (data : List ℝ) : ℝ :=
  (data.foldl (fun sum value => sum + value) 0) / data.length

/-- `function _standardDeviation(values)`: square root of the average of the
squared differences from the average (population standard deviation). -/
noncomputable def _standardDeviation (values : List ℝ) : ℝ :=
  let avg := _average values
  let squareDiffs := values.map (fun value => (value - avg) * (value - avg))
  let avgSquareDiff := _average squareDiffs
  Real.sqrt avgSquareDiff

/-- State of one `Contender` (the per-stream sampler).  The two `Bool`
fields model the `ws.onmessage` handler slot (`none` vs a bound closure)
and the pending `setTimeout` timer (`timeoutId` cleared vs pending). -/
structure Contender where
  countryCode : String
  lang : String
  name : String
  side : String
  wsUrl : String
  /-- `this.bucket = []` — inter-arrival deltas of the current window. -/
  bucket : List ℤ
  /-- `this.windowCounts = []` — one per-second count per closed window. -/
  windowCounts : List ℝ
  /-- `this.scores = []` — rolling window of recent scores. -/
  scores : List ℝ
  /-- `this.totalScore = 0`. -/
  totalScore : ℝ
  /-- `this.previousMessageTime = null`. -/
  previousMessageTime : Option ℤ
  /-- whether `this.ws.onmessage` is currently a bound handler (vs `null`). -/
  wsAttached : Bool
  /-- whether a window-close timeout is pending (`this.timeoutId` live). -/
  timerActive : Bool

/-- `function Contender(countryCode, lang, name, side, wsUrl)` — the
constructor: identity fields stored, all buffers empty, `totalScore = 0`,
no handler attached, no timer scheduled. -/
def Contender.make (countryCode lang name side wsUrl : String) : Contender :=
  { countryCode := countryCode
    lang := lang
    name := name
    side := side
    wsUrl := wsUrl
    bucket := []
    windowCounts := []
    scores := []
    totalScore := 0
    previousMessageTime := none
    wsAttached := false
    timerActive := false }

/-- JavaScript truthiness of `this.previousMessageTime` as tested by
`if (this.previousMessageTime)`: `null` and `0` are falsy. -/
def truthyTime : Option ℤ → Bool
  | none => false
  | some t => t != 0

/-- The `ws.onmessage` handler installed by `startListening`, applied when a
message arrives at time `time` (`Date.now()`).  If the handler slot is
empty (after `stopListening`), the message is dropped. -/
def Contender.onMessage (c : Contender) (time : ℤ) : Contender :=
  if c.wsAttached then
    match c.previousMessageTime with
    | some prev =>
        if prev ≠ 0 then
          { c with previousMessageTime := some time
                   bucket := c.bucket ++ [time - prev] }
        else
          { c with previousMessageTime := some time }
    | none => { c with previousMessageTime := some time }
  else c

/-- `Contender.prototype.addNewScore`'s `while (this.scores.length >
MAX_SCORES_TO_CONSIDER) { this.scores.shift(); }` loop. -/
def shiftWhile (max : ℕ) (l : List ℝ) : List ℝ :=
  if max < l.length then shiftWhile max l.tail else l
termination_by l.length
decreasing_by
  simp only [List.length_tail]
  omega

/-- `Contender.prototype.addNewScore = function(score)`: push the score,
shift out old scores past `MAX_SCORES_TO_CONSIDER`, recompute
`this.totalScore = _average(this.scores)`. -/
noncomputable def Contender.addNewScore (c : Contender) (score : ℝ) : Contender :=
  let scores := shiftWhile MAX_SCORES_TO_CONSIDER (c.scores ++ [score])
  { c with scores := scores, totalScore := _average scores }

/-- The score expression of `Contender.prototype.computeStatistics`:
`var score = (datasetStdDev === 0) ? 0 : (newCount - datasetAverage) / datasetStdDev;`
with `datasetAverage = _average(this.windowCounts)` and
`datasetStdDev = _standardDeviation(this.windowCounts)`. -/
noncomputable def jsScore (windowCounts : List ℝ) (newCount : ℕ) : ℝ :=
  let datasetAverage := _average windowCounts
  let datasetStdDev := _standardDeviation windowCounts
  if datasetStdDev = 0 then 0 else ((newCount : ℝ) - datasetAverage) / datasetStdDev

/-- The body of the `setTimeout` callback in
`Contender.prototype.computeStatistics`, run when the window-close timer
fires: grab and clear the bucket, score the new count against
`windowCounts` when it has more than one entry, push the new count, invoke
`onNewCount(newCount, side)` (returned as the second component), and
reschedule (the timer stays active).  If the timer was cleared by
`stopListening`, nothing fires and no callback is invoked. -/
noncomputable def Contender.tick (c : Contender) : Contender × Option (ℕ × String) :=
  if c.timerActive then
    let deltas := c.bucket
    let newCount := deltas.length
    let c1 : Contender := { c with bucket := [] }
    let c2 : Contender :=
      if 1 < c1.windowCounts.length then
        c1.addNewScore (jsScore c1.windowCounts newCount)
      else c1
    ({ c2 with windowCounts := c2.windowCounts ++ [(newCount : ℝ)] },
      some (newCount, c.side))
  else (c, none)

/-- `Contender.prototype.startListening`: install the message handler and
start the recurring window-close cycle (`computeStatistics` schedules the
first timeout). -/
def Contender.startListening (c : Contender) : Contender :=
  { c with wsAttached := true, timerActive := true }

/-- `Contender.prototype.stopListening`: `this.ws.onmessage = null;
window.clearTimeout(this.timeoutId);`. -/
def Contender.stopListening (c : Contender) : Contender :=
  { c with wsAttached := false, timerActive := false }

/-- Callback invocations emitted to the presentation layer by the `Battle`
wrapper: `onNewCount(count, side)` and `onChangeWinner(winner)`. -/
inductive BEvent where
  | newCount : ℕ → String → BEvent
  | changeWinner : Contender → BEvent

/-- State of a `Battle` (the comparator). -/
structure Battle where
  winner : Option Contender
  left : Contender
  right : Contender

/-- `function Battle(leftContender, rightContender, ...)`: `winner = null`,
both contenders stored. -/
def Battle.make (leftContender rightContender : Contender) : Battle :=
  { winner := none, left := leftContender, right := rightContender }

/-- The closure returned by `Battle.prototype.getOnNewCount`, invoked with
`(count, side)` whenever either contender closes a window: forward the
count, recompute the winner from the contenders' current `totalScore`s
(`this.left.totalScore > this.right.totalScore ? this.left : this.right`),
and fire `onChangeWinner` exactly when the new winner's side differs from
the previously recorded winner's side (`'none'` when `winner` was null). -/
noncomputable def Battle.onNewCountStep (b : Battle) (count : ℕ) (side : String) :
    Battle × List BEvent :=
  let oldWinnerSide := match b.winner with
    | some w => w.side
    | none => "none"
  let newWinner := if b.left.totalScore > b.right.totalScore then b.left else b.right
  ({ b with winner := some newWinner },
    [BEvent.newCount count side] ++
      (if newWinner.side ≠ oldWinnerSide then [BEvent.changeWinner newWinner] else []))

/-- `Battle.prototype.start`: start both contenders listening (each is
passed the `getOnNewCount` wrapper as its `onNewCount` callback). -/
def Battle.start (b : Battle) : Battle :=
  { b with left := b.left.startListening, right := b.right.startListening }

/-- `Battle.prototype.stop`: stop both contenders. -/
def Battle.stop (b : Battle) : Battle :=
  { b with left := b.left.stopListening, right := b.right.stopListening }

/-- The asynchronous events driving a battle: an inbound websocket message
on either side (with its `Date.now()` timestamp) or a window-close timer
tick on either side. -/
inductive SysEvent where
  | msgLeft : ℤ → SysEvent
  | msgRight : ℤ → SysEvent
  | tickLeft : SysEvent
  | tickRight : SysEvent

/-- One event-loop step of a running battle.  A tick first runs the
contender's `computeStatistics` body (mutating the contender), then — if
the timer actually fired — runs the `getOnNewCount` wrapper, which reads
both contenders' already-updated `totalScore`s. -/
noncomputable def Battle.sysStep (b : Battle) (e : SysEvent) : Battle × List BEvent :=
  match e with
  | SysEvent.msgLeft t => ({ b with left := b.left.onMessage t }, [])
  | SysEvent.msgRight t => ({ b with right := b.right.onMessage t }, [])
  | SysEvent.tickLeft =>
      let r := b.left.tick
      let b1 : Battle := { b with left := r.fst }
      match r.snd with
      | some (n, s) => b1.onNewCountStep n s
      | none => (b1, [])
  | SysEvent.tickRight =>
      let r := b.right.tick
      let b1 : Battle := { b with right := r.fst }
      match r.snd with
      | some (n, s) => b1.onNewCountStep n s
      | none => (b1, [])

/-- Run a battle through a sequence of events, collecting all emitted
callback invocations in order. -/
noncomputable def Battle.run (b : Battle) (es : List SysEvent) : Battle × List BEvent :=
  match es with
  | [] => (b, [])
  | e :: rest =>
      let r := b.sysStep e
      let r2 := r.fst.run rest
      (r2.fst, r.snd ++ r2.snd)

/-! ### Spec-side definitions

These follow the specification's words (not the source) and are compared
with the source-derived definitions above in the refinement theorems. -/

/-- Modelled from the spec: "Mean is the unweighted arithmetic mean." -/
noncomputable def specMean (l : List ℝ) : ℝ := l.sum / l.length

/-- Modelled from the spec: "standard deviation is the population standard
deviation (divide by N, not N−1)". -/
noncomputable def popStdDev (l : List ℝ) : ℝ :=
  Real.sqrt ((l.map (fun x => (x - specMean l) ^ 2)).sum / l.length)

/-- Modelled from the spec: "Compute `score = 0` if `datasetStdDev == 0`,
else `score = (newCount - datasetAverage) / datasetStdDev`." -/
noncomputable def specScore (baseline : List ℝ) (newCount : ℕ) : ℝ :=
  if popStdDev baseline = 0 then 0
  else ((newCount : ℝ) - specMean baseline) / popStdDev baseline

/-- The comparison winner as the amended spec words it: the left contender
when its aggregate score is strictly greater, otherwise the right contender
(ties select the right side). -/
noncomputable def specCandidate (l r : Contender) : Contender :=
  if l.totalScore ≤ r.totalScore then r else l

/-- The previously recorded leader's side, with the sentinel used by the
code when no winner has been recorded yet. -/
def prevSide (b : Battle) : String :=
  match b.winner with
  | some w => w.side
  | none => "none"

/-! ### Concrete states used by witnesses and counterexamples -/

/-- A listening contender with a two-entry baseline and three buffered
deltas. -/
noncomputable def cW1 : Contender :=
  { Contender.make "us" "en" "English" "left" "wsA" with
      windowCounts := [3, 5]
      bucket := [1, 1, 1]
      wsAttached := true
      timerActive := true }

/-- A listening contender that has seen one previous message (at time 5). -/
def cW6 : Contender :=
  { Contender.make "de" "de" "German" "left" "wsB" with
      previousMessageTime := some 5
      wsAttached := true }

/-- A freshly started contender (no windows closed yet). -/
def cW7 : Contender :=
  (Contender.make "fr" "fr" "French" "right" "wsC").startListening

/-- A fresh left contender. -/
def demoLeft : Contender := Contender.make "us" "en" "English" "left" "wsL"

/-- A fresh right contender. -/
def demoRight : Contender := Contender.make "pl" "pl" "Polish" "right" "wsR"

/-- A battle over two fresh contenders, just started: both aggregate
scores are 0 and no winner is recorded. -/
def demoBattle : Battle := (Battle.make demoLeft demoRight).start

/-! ### Helper lemmas -/

/-- The source's reduce-based average is the spec's arithmetic mean. -/
theorem _average_eq_specMean (l : List ℝ) : _average l = specMean l := by
  unfold _average specMean
  rw [List.sum_eq_foldl]

/-- The source's `_standardDeviation` is the spec's population standard
deviation. -/
theorem _standardDeviation_eq_popStdDev (l : List ℝ) :
    _standardDeviation l = popStdDev l := by
  unfold _standardDeviation popStdDev
  simp only []
  rw [_average_eq_specMean l, _average_eq_specMean]
  have hfun : (fun value : ℝ => (value - specMean l) * (value - specMean l))
      = fun x : ℝ => (x - specMean l) ^ 2 :=
    funext fun v => (pow_two _).symm
  rw [hfun]
  unfold specMean
  rw [List.length_map]

/-- The source's score expression is the spec's score. -/
theorem jsScore_eq_specScore (wcs : List ℝ) (n : ℕ) :
    jsScore wcs n = specScore wcs n := by
  unfold jsScore specScore
  rw [_standardDeviation_eq_popStdDev, _average_eq_specMean]

/-- The shift-out loop of `addNewScore` drops all but the last `m`
elements. -/
theorem shiftWhile_eq_drop (m : ℕ) (l : List ℝ) :
    shiftWhile m l = l.drop (l.length - m) := by
  rw [shiftWhile]
  split
  · rename_i h
    rw [shiftWhile_eq_drop m l.tail]
    cases l with
    | nil => simp at h
    | cons a as =>
      simp only [List.tail_cons, List.length_cons]
      have hsub : as.length + 1 - m = (as.length - m) + 1 := by
        simp only [List.length_cons] at h
        omega
      rw [hsub, List.drop_succ_cons]
  · rename_i h
    have hz : l.length - m = 0 := by omega
    rw [hz, List.drop_zero]
termination_by l.length
decreasing_by
  simp only [List.length_tail]
  omega

/-- Dropping all but the last `m` elements commutes with appending one
element: evicting from the already-evicted window plus a new score is
evicting from the full history plus the new score. -/
theorem drop_window_append (xs : List ℝ) (x : ℝ) (m : ℕ) (hm : 1 ≤ m) :
    (xs.drop (xs.length - m) ++ [x]).drop ((xs.drop (xs.length - m)).length + 1 - m)
      = (xs ++ [x]).drop (xs.length + 1 - m) := by
  rw [List.length_drop]
  rcases le_or_lt m xs.length with hml | hml
  · have h1 : xs.length - (xs.length - m) + 1 - m = 1 := by omega
    rw [h1]
    have hlen : 1 ≤ (xs.drop (xs.length - m)).length := by
      rw [List.length_drop]; omega
    rw [List.drop_append_of_le_length hlen, List.drop_drop]
    have h3 : xs.length + 1 - m ≤ xs.length := by omega
    rw [List.drop_append_of_le_length h3]
    have h4 : xs.length - m + 1 = xs.length + 1 - m := by omega
    rw [h4]
  · have h1 : xs.length - m = 0 := by omega
    rw [h1, List.drop_zero]
    have h2 : xs.length - 0 + 1 - m = xs.length + 1 - m := by omega
    rw [h2]

/-- `addNewScore` pushes the score and runs the shift-out loop. -/
theorem addNewScore_scores (c : Contender) (s : ℝ) :
    (c.addNewScore s).scores = shiftWhile MAX_SCORES_TO_CONSIDER (c.scores ++ [s]) := rfl

/-- `addNewScore` recomputes `totalScore` as the average of the stored
scores. -/
theorem addNewScore_totalScore (c : Contender) (s : ℝ) :
    (c.addNewScore s).totalScore = _average (c.addNewScore s).scores := rfl

/-- The scores window after folding any history of appended scores is
exactly the trailing `MAX_SCORES_TO_CONSIDER` suffix of that history. -/
theorem foldl_addNewScore_scores (c0 : Contender) (hc0 : c0.scores = [])
    (ss : List ℝ) :
    (ss.foldl Contender.addNewScore c0).scores
      = ss.drop (ss.length - MAX_SCORES_TO_CONSIDER) := by
  induction ss using List.reverseRecOn with
  | nil =>
      simp only [List.foldl_nil, List.length_nil, Nat.zero_sub, List.drop_zero, hc0]
  | append_singleton xs x ih =>
      rw [List.foldl_append, List.foldl_cons, List.foldl_nil]
      rw [addNewScore_scores, shiftWhile_eq_drop, ih]
      have hlen1 : (xs.drop (xs.length - MAX_SCORES_TO_CONSIDER) ++ [x]).length
          = (xs.drop (xs.length - MAX_SCORES_TO_CONSIDER)).length + 1 := by
        rw [List.length_append]; rfl
      rw [hlen1]
      have hlen2 : (xs ++ [x]).length = xs.length + 1 := by
        rw [List.length_append]; rfl
      rw [hlen2]
      exact drop_window_append xs x MAX_SCORES_TO_CONSIDER (by norm_num [MAX_SCORES_TO_CONSIDER])

/-- `addNewScore` leaves the `windowCounts` baseline untouched. -/
theorem addNewScore_windowCounts (c : Contender) (s : ℝ) :
    (c.addNewScore s).windowCounts = c.windowCounts := rfl

/-! ### The claims -/

/-- Claim C1: at a window-close tick of a sampler whose `windowCounts`
history has at least 2 entries, the score appended to the score window is
`(newCount - mean(windowCounts)) / populationStdDev(windowCounts)` when
the population standard deviation (dividing by N) is nonzero, and exactly
0 when the population standard deviation is 0, regardless of the new
count. -/
theorem C1_tick_score_is_spec_score (c : Contender)
    (h2 : 2 ≤ c.windowCounts.length) (hT : c.timerActive = true) :
    c.tick.fst.scores
      = shiftWhile MAX_SCORES_TO_CONSIDER
          (c.scores ++ [specScore c.windowCounts c.bucket.length]) ∧
    (∀ n : ℕ, popStdDev c.windowCounts = 0 → specScore c.windowCounts n = 0) ∧
    (popStdDev c.windowCounts ≠ 0 →
      specScore c.windowCounts c.bucket.length
        = ((c.bucket.length : ℝ) - specMean c.windowCounts) / popStdDev c.windowCounts) := by
  have h1 : 1 < c.windowCounts.length := h2
  refine ⟨?_, ?_, ?_⟩
  · simp [Contender.tick, hT, h1, addNewScore_scores, jsScore_eq_specScore]
  · intro n h
    unfold specScore
    rw [if_pos h]
  · intro h
    unfold specScore
    rw [if_neg h]

/-- Witness for C1 at a concrete sampler state: baseline `[3, 5]`, three
buffered deltas. -/
theorem C1_tick_score_is_spec_score_witness :
    (2 ≤ cW1.windowCounts.length ∧ cW1.timerActive = true) ∧
    (cW1.tick.fst.scores
      = shiftWhile MAX_SCORES_TO_CONSIDER
          (cW1.scores ++ [specScore cW1.windowCounts cW1.bucket.length]) ∧
    (∀ n : ℕ, popStdDev cW1.windowCounts = 0 → specScore cW1.windowCounts n = 0) ∧
    (popStdDev cW1.windowCounts ≠ 0 →
      specScore cW1.windowCounts cW1.bucket.length
        = ((cW1.bucket.length : ℝ) - specMean cW1.windowCounts)
            / popStdDev cW1.windowCounts)) :=
  ⟨⟨by norm_num [cW1], rfl⟩,
    C1_tick_score_is_spec_score cW1 (by norm_num [cW1]) rfl⟩

/-- Claim C3: for every sampler and every sequence of appended scores, the
score window holds at most the 20 most recent scores in FIFO order
(appending a 21st evicts exactly the oldest, keeping length at most 20),
and `totalScore` equals the arithmetic mean of the scores currently in the
window, recomputed on every insertion, with initial value 0 before any
score exists. -/
theorem C3_score_window_fifo (cc lg nm sd url : String) (ss : List ℝ) :
    (Contender.make cc lg nm sd url).totalScore = 0 ∧
    (ss.foldl Contender.addNewScore (Contender.make cc lg nm sd url)).scores
      = ss.drop (ss.length - MAX_SCORES_TO_CONSIDER) ∧
    (ss.foldl Contender.addNewScore (Contender.make cc lg nm sd url)).scores.length
      ≤ MAX_SCORES_TO_CONSIDER ∧
    (ss.foldl Contender.addNewScore (Contender.make cc lg nm sd url)).totalScore
      = (if ss.isEmpty then 0
         else _average
            (ss.foldl Contender.addNewScore (Contender.make cc lg nm sd url)).scores) := by
  have hs := foldl_addNewScore_scores (Contender.make cc lg nm sd url) rfl ss
  refine ⟨rfl, hs, ?_, ?_⟩
  · rw [hs, List.length_drop]
    omega
  · induction ss using List.reverseRecOn with
    | nil => rfl
    | append_singleton xs x _ =>
        rw [List.foldl_append, List.foldl_cons, List.foldl_nil]
        have hne : (xs ++ [x]).isEmpty = false := by simp
        rw [hne]
        exact addNewScore_totalScore _ x

/-- Claim C5: every window-close tick appends exactly one entry — the new
count — to `windowCounts`, whether or not scoring was skipped, and any
score computed at that tick is computed against the baseline *before* the
append (a window's own count is never part of the baseline that scores
it). -/
theorem C5_windowCounts_append_after_scoring (c : Contender)
    (hT : c.timerActive = true) :
    c.tick.fst.windowCounts = c.windowCounts ++ [(c.bucket.length : ℝ)] ∧
    c.tick.fst.windowCounts.length = c.windowCounts.length + 1 ∧
    c.tick.fst.scores
      = (if 1 < c.windowCounts.length
         then shiftWhile MAX_SCORES_TO_CONSIDER
            (c.scores ++ [jsScore c.windowCounts c.bucket.length])
         else c.scores) := by
  by_cases h : 1 < c.windowCounts.length
  · refine ⟨?_, ?_, ?_⟩ <;>
      simp [Contender.tick, hT, h, addNewScore_scores, addNewScore_windowCounts]
  · refine ⟨?_, ?_, ?_⟩ <;>
      simp [Contender.tick, hT, h]

/-- Witness for C5 at a concrete sampler state. -/
theorem C5_windowCounts_append_after_scoring_witness :
    cW1.timerActive = true ∧
    (cW1.tick.fst.windowCounts = cW1.windowCounts ++ [(cW1.bucket.length : ℝ)] ∧
    cW1.tick.fst.windowCounts.length = cW1.windowCounts.length + 1 ∧
    cW1.tick.fst.scores
      = (if 1 < cW1.windowCounts.length
         then shiftWhile MAX_SCORES_TO_CONSIDER
            (cW1.scores ++ [jsScore cW1.windowCounts cW1.bucket.length])
         else cW1.scores)) :=
  ⟨rfl, C5_windowCounts_append_after_scoring cW1 rfl⟩

/-- Claim C7: when `windowCounts` has fewer than 2 entries at a
window-close tick, score computation is skipped — no score is appended and
`totalScore` is not recomputed — no error is raised (the step is total),
and `onNewCount` is still invoked exactly once with the new count and the
sampler's side. -/
theorem C7_skip_scoring_still_counts (c : Contender)
    (hT : c.timerActive = true) (hlen : c.windowCounts.length < 2) :
    c.tick.fst.scores = c.scores ∧
    c.tick.fst.totalScore = c.totalScore ∧
    c.tick.snd = some (c.bucket.length, c.side) := by
  have h : ¬ 1 < c.windowCounts.length := by omega
  refine ⟨?_, ?_, ?_⟩ <;> simp [Contender.tick, hT, h]

/-- Witness for C7 at a freshly started sampler. -/
theorem C7_skip_scoring_still_counts_witness :
    (cW7.timerActive = true ∧ cW7.windowCounts.length < 2) ∧
    (cW7.tick.fst.scores = cW7.scores ∧
    cW7.tick.fst.totalScore = cW7.totalScore ∧
    cW7.tick.snd = some (cW7.bucket.length, cW7.side)) :=
  ⟨⟨rfl, by norm_num [cW7, Contender.startListening, Contender.make]⟩,
    C7_skip_scoring_still_counts cW7 rfl
      (by norm_num [cW7, Contender.startListening, Contender.make])⟩

/-- Claim C9: `stopListening` modifies only the message-handler slot
(cleared) and the pending timer (cancelled); all accumulated statistical
state and identity fields are unchanged. -/
theorem C9_stopListening_frame (c : Contender) :
    (c.stopListening).windowCounts = c.windowCounts ∧
    (c.stopListening).scores = c.scores ∧
    (c.stopListening).totalScore = c.totalScore ∧
    (c.stopListening).bucket = c.bucket ∧
    (c.stopListening).previousMessageTime = c.previousMessageTime ∧
    (c.stopListening).countryCode = c.countryCode ∧
    (c.stopListening).lang = c.lang ∧
    (c.stopListening).name = c.name ∧
    (c.stopListening).side = c.side ∧
    (c.stopListening).wsUrl = c.wsUrl ∧
    (c.stopListening).wsAttached = false ∧
    (c.stopListening).timerActive = false :=
  ⟨rfl, rfl, rfl, rfl, rfl, rfl, rfl, rfl, rfl, rfl, rfl, rfl⟩

/-- Claim C6: an inbound stream event pushes the inter-arrival delta
`now - previousMessageTime` onto the current bucket only when
`previousMessageTime` is already set, and always updates
`previousMessageTime` to `now`; hence the very first event in the
sampler's lifetime produces no delta entry, and a first window containing
only that single event yields `newCount = 0` (the count is the bucket
length of deltas). -/
theorem C6_message_delta (c : Contender) (t : ℤ) (hA : c.wsAttached = true) :
    (c.onMessage t).previousMessageTime = some t ∧
    (c.previousMessageTime = none → (c.onMessage t).bucket = c.bucket) ∧
    (∀ p : ℤ, c.previousMessageTime = some p → p ≠ 0 →
      (c.onMessage t).bucket = c.bucket ++ [t - p]) ∧
    (∀ cc lg nm sd url : String, ∀ t1 : ℤ,
      (((Contender.make cc lg nm sd url).startListening).onMessage t1).bucket = []
      ∧ ((((Contender.make cc lg nm sd url).startListening).onMessage t1).tick).snd
          = some (0, sd)) := by
  refine ⟨?_, ?_, ?_, ?_⟩
  · rcases hp : c.previousMessageTime with _ | p
    · simp [Contender.onMessage, hA, hp]
    · by_cases hp0 : p ≠ 0
      · simp [Contender.onMessage, hA, hp, hp0]
      · simp [Contender.onMessage, hA, hp, hp0]
  · intro h
    simp [Contender.onMessage, hA, h]
  · intro p hp hp0
    simp [Contender.onMessage, hA, hp, hp0]
  · intro cc lg nm sd url t1
    constructor
    · simp [Contender.onMessage, Contender.startListening, Contender.make]
    · simp [Contender.onMessage, Contender.startListening, Contender.make,
        Contender.tick]

/-- Witness for C6 at a concrete sampler state that has already seen one
message (at time 5), receiving the next at time 12. -/
theorem C6_message_delta_witness :
    cW6.wsAttached = true ∧
    ((cW6.onMessage 12).previousMessageTime = some 12 ∧
    (cW6.previousMessageTime = none → (cW6.onMessage 12).bucket = cW6.bucket) ∧
    (∀ p : ℤ, cW6.previousMessageTime = some p → p ≠ 0 →
      (cW6.onMessage 12).bucket = cW6.bucket ++ [12 - p]) ∧
    (∀ cc lg nm sd url : String, ∀ t1 : ℤ,
      (((Contender.make cc lg nm sd url).startListening).onMessage t1).bucket = []
      ∧ ((((Contender.make cc lg nm sd url).startListening).onMessage t1).tick).snd
          = some (0, sd))) :=
  ⟨rfl, C6_message_delta cW6 12 rfl⟩

/-- Claim C2 is false on the code: at the very first wrapper invocation
both aggregate scores are equal (both 0), yet a winner-change event fires
— the tie selects the right contender and its side differs from the
sentinel recorded when no leader exists. -/
theorem C2_counterexample_equal_scores_fire :
    demoBattle.winner = none ∧
    demoBattle.left.totalScore = demoBattle.right.totalScore ∧
    (demoBattle.sysStep SysEvent.tickLeft).snd
      = [BEvent.newCount 0 "left", BEvent.changeWinner (demoRight.startListening)] := by
  refine ⟨rfl, rfl, ?_⟩
  simp [demoBattle, demoLeft, demoRight, Battle.make, Battle.start, Battle.sysStep,
    Contender.startListening, Contender.make, Contender.tick, Battle.onNewCountStep]

/-- Claim C2 (amended): the winner-change callback fires if and only if
the side of the comparison winner — the left sampler when its aggregate
score is strictly greater, otherwise the right sampler (ties select the
right side) — differs from the previously recorded leader's side (the
sentinel "none" when no leader was recorded); the leader is updated to the
comparison winner on every invocation, so equal aggregate scores fire a
winner-change whenever the previous leader was not the right side. -/
theorem C2_amended_winner_change_iff (b : Battle) (n : ℕ) (s : String) :
    (b.onNewCountStep n s).fst.winner = some (specCandidate b.left b.right) ∧
    (b.onNewCountStep n s).snd
      = [BEvent.newCount n s]
        ++ (if (specCandidate b.left b.right).side ≠ prevSide b
            then [BEvent.changeWinner (specCandidate b.left b.right)] else []) := by
  have hcand : (if b.left.totalScore > b.right.totalScore then b.left else b.right)
      = specCandidate b.left b.right := by
    unfold specCandidate
    rcases le_or_lt b.left.totalScore b.right.totalScore with h | h
    · rw [if_pos h, if_neg (not_lt.mpr h)]
    · rw [if_neg (not_le.mpr h), if_pos h]
  rcases hw : b.winner with _ | w <;>
    simp [Battle.onNewCountStep, prevSide, hw, hcand]

/-- Claim C4 is false on the code: with both samplers fresh — equal
aggregate scores (both 0) and no qualifying score yet — the very first
wrapper invocation already sets the leader (to the ticked right contender)
and fires a winner-change. -/
theorem C4_counterexample_leader_set_on_trivial_data :
    demoBattle.winner = none ∧
    demoBattle.left.totalScore = demoBattle.right.totalScore ∧
    (demoBattle.sysStep SysEvent.tickRight).fst.winner
      = some ((demoRight.startListening).tick.fst) ∧
    (demoBattle.sysStep SysEvent.tickRight).snd
      = [BEvent.newCount 0 "right",
          BEvent.changeWinner ((demoRight.startListening).tick.fst)] := by
  refine ⟨rfl, rfl, ?_, ?_⟩ <;>
    simp [demoBattle, demoLeft, demoRight, Battle.make, Battle.start, Battle.sysStep,
      Contender.startListening, Contender.make, Contender.tick, Battle.onNewCountStep]

/-- Claim C4 (amended): the comparator's leader is null only until the
first wrapper invocation (not until the first comparison with non-trivial
data): when the two aggregate scores are equal, the invocation sets the
leader to the right-side sampler, firing a winner-change whenever the
right sampler's side differs from the previously recorded one — in
particular at the very first invocation; once the leader is the right
sampler, further equal-score invocations keep it and fire nothing. -/
theorem C4_amended_equal_scores (l r : Contender) (n : ℕ) (s : String)
    (hEq : l.totalScore = r.totalScore) :
    (Battle.make l r).winner = none ∧
    ((Battle.make l r).onNewCountStep n s).fst.winner = some r ∧
    (r.side ≠ "none" →
      ((Battle.make l r).onNewCountStep n s).snd
        = [BEvent.newCount n s, BEvent.changeWinner r]) ∧
    (∀ b : Battle, b.left = l → b.right = r → b.winner = some r →
      (b.onNewCountStep n s).fst.winner = some r ∧
      (b.onNewCountStep n s).snd = [BEvent.newCount n s]) := by
  have hnlt : ¬ l.totalScore > r.totalScore := by
    rw [hEq]; exact lt_irrefl _
  refine ⟨rfl, ?_, ?_, ?_⟩
  · simp [Battle.onNewCountStep, Battle.make, hnlt]
  · intro hside
    simp [Battle.onNewCountStep, Battle.make, hnlt, hside]
  · intro b hl hr hw
    subst hl
    subst hr
    constructor <;> simp [Battle.onNewCountStep, hw, hnlt]

/-- Witness for C4 (amended) at two fresh contenders (both aggregate
scores 0). -/
theorem C4_amended_equal_scores_witness :
    demoLeft.totalScore = demoRight.totalScore ∧
    ((Battle.make demoLeft demoRight).winner = none ∧
    ((Battle.make demoLeft demoRight).onNewCountStep 0 "left").fst.winner
      = some demoRight ∧
    (demoRight.side ≠ "none" →
      ((Battle.make demoLeft demoRight).onNewCountStep 0 "left").snd
        = [BEvent.newCount 0 "left", BEvent.changeWinner demoRight]) ∧
    (∀ b : Battle, b.left = demoLeft → b.right = demoRight →
      b.winner = some demoRight →
      (b.onNewCountStep 0 "left").fst.winner = some demoRight ∧
      (b.onNewCountStep 0 "left").snd = [BEvent.newCount 0 "left"])) :=
  ⟨rfl, C4_amended_equal_scores demoLeft demoRight 0 "left" rfl⟩

/-- After `Battle.stop`, any single event leaves the state unchanged and
emits no callback. -/
theorem stopped_sysStep (b : Battle) (e : SysEvent) :
    (b.stop).sysStep e = (b.stop, []) := by
  cases e <;> rfl

/-- Claim C8: after the comparator's stop — which stops both samplers,
cancelling each pending window-close timer and detaching each message
handler — no further onNewCount or onWinnerChanged callback ever fires,
and any stream message arriving after stop is silently dropped without
mutating sampler state: any sequence of events run from the stopped state
leaves it unchanged and emits nothing. -/
theorem C8_stop_silences (b : Battle) (es : List SysEvent) :
    (b.stop).run es = (b.stop, []) := by
  induction es with
  | nil => rfl
  | cons e rest ih => simp [Battle.run, stopped_sysStep, ih]

/-- Claim C10: every wrapper invocation sets the winner to exactly one of
the two owned contenders — the left or the right, never any other value —
and once set the winner is never reset to null: after any invocation it is
non-null, and stop() does not modify it. -/
theorem C10_winner_left_or_right (b : Battle) (n : ℕ) (s : String) :
    ((b.onNewCountStep n s).fst.winner = some b.left
      ∨ (b.onNewCountStep n s).fst.winner = some b.right) ∧
    ((b.onNewCountStep n s).fst.winner).isSome = true ∧
    (b.stop).winner = b.winner := by
  refine ⟨?_, rfl, rfl⟩
  by_cases h : b.left.totalScore > b.right.totalScore
  · left
    simp [Battle.onNewCountStep, h]
  · right
    simp [Battle.onNewCountStep, h]

end WikiBattle
